import Mathlib

/-!
Shallow embedding of `eark/solver.py` (point-kinetics reactor solver).

Machine floats are modelled by exact rationals `ℚ`; numpy 1-D arrays by
`List ℚ` and 2-D arrays by `List (List ℚ)`.  Operations that raise a
Python exception return `Except String`.  The external scipy integrator
`odeint` is out of scope for the core (it is an injected capability), so
`solve` takes it as an explicit functional argument and theorems state
its documented shape contract as a hypothesis.
-/

namespace Eark

/-- Python float division `a / b`: raises `ZeroDivisionError` on `b = 0`. -/
def pyDiv (a b : ℚ) : Except String ℚ :=
  if b = 0 then .error "ZeroDivisionError" else .ok (a / b)

/-- Embedding of `np.inner` on two 1-D arrays: sum of elementwise products. -/
def npInner (a b : List ℚ) : ℚ :=
  (List.zipWith (fun x y => x * y) a b).sum

/-- Embedding of the Python slice `l[1:-2]`: elements at indices
`1 ≤ k < len l - 2`. -/
def slice1ToM2 (l : List ℚ) : List ℚ :=
  (l.take (l.length - 2)).drop 1

/-- Embedding of `np.linspace(start, stop, num)` (default `endpoint=True`):
raises `ValueError` for negative `num`; returns `[]` for `num = 0`,
`[start]` for `num = 1`, and otherwise the `num` evenly spaced points
`start + i*(stop-start)/(num-1)` for `i = 0..num-1`. -/
def np_linspace (start stop : ℚ) (num : ℤ) : Except String (List ℚ) :=
  if num < 0 then .error "ValueError"
  else if num = 0 then .ok []
  else if num = 1 then .ok [start]
  else .ok ((List.range num.toNat).map
    (fun i : ℕ => start + (i : ℚ) * ((stop - start) / ((num : ℚ) - 1))))

/-- Embedding of `np.arange(start, stop, step)`: raises `ZeroDivisionError`
on zero step; otherwise returns `start + i*step` for
`i = 0 .. ⌈(stop-start)/step⌉ - 1` (empty when that ceiling is nonpositive). -/
def np_arange (start stop step : ℚ) : Except String (List ℚ) :=
  if step = 0 then .error "ZeroDivisionError"
  else .ok ((List.range (⌈(stop - start) / step⌉).toNat).map
    (fun i : ℕ => start + (i : ℚ) * step))

/-- Function `total_neutron_deriv` of `solver.py`:
`((rho - beta) / period) * n + np.inner(precursor_constants, precursor_density)`. -/
def total_neutron_deriv (rho beta period n : ℚ)
    (precursor_constants precursor_density : List ℚ) : ℚ :=
  ((rho - beta) / period) * n + npInner precursor_constants precursor_density

/-- Function `delay_neutron_deriv` of `solver.py`:
`beta_vector * n / period - precursor_constants * precursor_density`,
elementwise over equal-length 1-D arrays (numpy broadcasting). -/
def delay_neutron_deriv (beta_vector : List ℚ) (period n : ℚ)
    (precursor_constants precursor_density : List ℚ) : List ℚ :=
  List.zipWith (fun x y => x - y)
    (beta_vector.map (fun b => b * n / period))
    (List.zipWith (fun l c => l * c) precursor_constants precursor_density)

/-- Function `mod_temp_deriv` of `solver.py`. -/
def mod_temp_deriv (h M_M C_M W_M T_fuel T_mod T_in : ℚ) : ℚ :=
  (h / (M_M * C_M)) * (T_fuel - T_mod) - (2 * W_M / M_M) * (T_mod - T_in)

/-- Function `fuel_temp_deriv` of `solver.py`. -/
def fuel_temp_deriv (n M_F C_F h T_fuel T_mod : ℚ) : ℚ :=
  (n / (M_F * C_F)) - ((h / (M_F * C_F)) * (T_fuel - T_mod))

/-- Function `_state_deriv` of `solver.py`: assembles the derivative of the
flattened reactor state (`state[k]` becomes `state.getD k 0`; callers pass
9-element states).  The time argument `t` is kept because the scipy
interface requires it, and is unused, exactly as in the source. -/
def state_deriv (state : List ℚ) (t : ℚ)
    (beta_vector precursor_constants : List ℚ)
    (rho total_beta period h M_M C_M W_M M_F C_F T_in : ℚ) : List ℚ :=
  let dndt := total_neutron_deriv rho total_beta period (state.getD 0 0)
    precursor_constants (slice1ToM2 state)
  let dcdt := delay_neutron_deriv beta_vector period (state.getD 0 0)
    precursor_constants (slice1ToM2 state)
  let dT_moddt := mod_temp_deriv h M_M C_M W_M (state.getD 8 0) (state.getD 7 0) T_in
  let dT_fueldt := fuel_temp_deriv (state.getD 0 0) M_F C_F h (state.getD 8 0) (state.getD 7 0)
  [dndt] ++ dcdt ++ [dT_moddt, dT_fueldt]

/-- The `Solution` class of `solver.py`: the raw output grid and the
time sequence. -/
structure Solution where
  array : List (List ℚ)
  t : List ℚ

/-- Number of columns of a 2-D numpy array (rows are all the same length;
`0` for an empty array). -/
def npCols (m : List (List ℚ)) : ℕ :=
  match m with
  | [] => 0
  | r :: _ => r.length

/-- Resolution of a (possibly negative) Python/numpy column index against
`ncols` columns: `0 ≤ j < ncols` is used as is, `-ncols ≤ j < 0` wraps to
`ncols + j`, anything else raises `IndexError`. -/
def npColIdx (ncols : ℕ) (j : ℤ) : Except String ℕ :=
  if 0 ≤ j ∧ j < (ncols : ℤ) then .ok j.toNat
  else if -(ncols : ℤ) ≤ j ∧ j < 0 then .ok ((ncols : ℤ) + j).toNat
  else .error "IndexError"

/-- Column `k` of a 2-D array (index already resolved, in bounds for
rectangular input). -/
def colOf (m : List (List ℚ)) (k : ℕ) : List ℚ :=
  m.map (fun r => r.getD k 0)

/-- Embedding of `m[:, j]` for a 2-D numpy array, with Python index
semantics. -/
def npGetCol (m : List (List ℚ)) (j : ℤ) : Except String (List ℚ) :=
  (npColIdx (npCols m) j).map (fun k => colOf m k)

/-- Property `Solution.neutron_population`: `array[:, 0]`. -/
def Solution.neutron_population (s : Solution) : List ℚ :=
  colOf s.array 0

/-- Property `Solution.precursor_densities`: `array[:, 1:-2]`, i.e. the
slice applied row-wise. -/
def Solution.precursor_densities (s : Solution) : List (List ℚ) :=
  s.array.map slice1ToM2

/-- Method `Solution.precursor_density(i)`: `precursor_densities[:, i - 1]`,
with numpy index semantics (negative indices wrap). -/
def Solution.precursor_density (s : Solution) (i : ℤ) : Except String (List ℚ) :=
  npGetCol s.precursor_densities (i - 1)

/-- Property `Solution.T_mod`: `array[:, 7]`. -/
def Solution.T_mod (s : Solution) : List ℚ :=
  colOf s.array 7

/-- Property `Solution.T_fuel`: `array[:, 8]`. -/
def Solution.T_fuel (s : Solution) : List ℚ :=
  colOf s.array 8

/-- The initial flattened state built at the top of `solve`:
`np.concatenate(([n_initial], precursor_density_initial, [T_mod0, T_fuel0]))`. -/
def solve_initial_state (n_initial : ℚ) (precursor_density_initial : List ℚ)
    (T_mod0 T_fuel0 : ℚ) : List ℚ :=
  [n_initial] ++ precursor_density_initial ++ [T_mod0, T_fuel0]

/-- Function `solve` of `solver.py`.  The external scipy integrator is the
explicit first argument `odeint` (signature `odeint(f, y0, t) → grid`);
everything else follows the source line by line: build the initial state,
build the integrator grid with `np.linspace`, integrate, and return a
`Solution` whose time sequence is rebuilt with `np.arange`. -/
def solve (odeint : (List ℚ → ℚ → List ℚ) → List ℚ → List ℚ → List (List ℚ))
    (n_initial : ℚ) (precursor_density_initial beta_vector precursor_constants : List ℚ)
    (rho total_beta period h M_M C_M W_M M_F C_F T_in T_mod0 T_fuel0 : ℚ)
    (t_max t_start : ℚ) (num_iters : ℤ) : Except String Solution := do
  let initial_state := solve_initial_state n_initial precursor_density_initial T_mod0 T_fuel0
  let t ← np_linspace t_start t_max num_iters
  let res := odeint
    (fun state tt => state_deriv state tt beta_vector precursor_constants
      rho total_beta period h M_M C_M W_M M_F C_F T_in)
    initial_state t
  let step ← pyDiv (t_max - t_start) (num_iters : ℚ)
  let ts ← np_arange t_start t_max step
  return { array := res, t := ts }

/-! Concrete inputs used by counterexamples and witnesses: the precursor
constants, delayed-neutron fractions and precursor densities of the
docstring examples in `solver.py`, a one-row solution grid, and a trivial
integrator satisfying the documented `odeint` shape contract. -/

/-- Precursor density vector of the docstring examples. -/
def cPdi : List ℚ := [5000, 6000, 5600, 4700, 7800, 6578]

/-- Beta vector of the docstring examples. -/
def cBeta : List ℚ := [0.033, 0.219, 0.196, 0.395, 0.115, 0.042]

/-- Precursor constants of the docstring examples. -/
def cLam : List ℚ := [0.0124, 0.0305, 0.1110, 0.3011, 1.1400, 3.0100]

/-- A concrete one-row solution grid with the 9-column layout produced by
`solve`: row `[10, 1, 2, 3, 4, 5, 6, 77, 88]`. -/
def exSol : Solution := ⟨[[10, 1, 2, 3, 4, 5, 6, 77, 88]], [0]⟩

/-- A trivial stand-in integrator satisfying the documented `odeint` shape
contract: one output row per requested time point, each equal to the
initial state. -/
def trivODE : (List ℚ → ℚ → List ℚ) → List ℚ → List ℚ → List (List ℚ) :=
  fun _ y0 ts => ts.map (fun _ => y0)

/-! Small rewriting helpers for the `Except` monad and for the branches of
`np_linspace`, `np_arange` and `pyDiv`. -/

/-- Bind on a success value reduces to the continuation. -/
theorem ok_bind {α β : Type} (a : α) (f : α → Except String β) :
    Except.bind (.ok a) f = f a := rfl

/-- Bind on an error propagates the error. -/
theorem error_bind {α β : Type} (e : String) (f : α → Except String β) :
    Except.bind (.error e) f = .error e := rfl

/-- Success values satisfy `isOk`. -/
theorem isOk_ok {α : Type} (a : α) : (Except.ok a : Except String α).isOk = true := rfl

/-- Errors fail `isOk`. -/
theorem isOk_error {α : Type} (e : String) :
    (Except.error e : Except String α).isOk = false := rfl

/-- Branch of `np_linspace` for at least two samples. -/
theorem np_linspace_of_two_le (start stop : ℚ) (num : ℤ) (hn : 2 ≤ num) :
    np_linspace start stop num
      = .ok ((List.range num.toNat).map
          (fun i : ℕ => start + (i : ℚ) * ((stop - start) / ((num : ℚ) - 1)))) := by
  unfold np_linspace
  rw [if_neg (by omega), if_neg (by omega), if_neg (by omega)]

/-- Branch of `np_linspace` for exactly one sample. -/
theorem np_linspace_one (start stop : ℚ) :
    np_linspace start stop 1 = .ok [start] := by
  unfold np_linspace
  rw [if_neg (by omega), if_neg (by omega), if_pos rfl]

/-- Branch of `np_linspace` for zero samples. -/
theorem np_linspace_zero (start stop : ℚ) :
    np_linspace start stop 0 = .ok [] := by
  unfold np_linspace
  rw [if_neg (by omega), if_pos rfl]

/-- Branch of `np_linspace` for a negative sample count. -/
theorem np_linspace_neg (start stop : ℚ) (num : ℤ) (hn : num < 0) :
    np_linspace start stop num = .error "ValueError" := by
  unfold np_linspace
  rw [if_pos hn]

/-- Every positive sample count makes `np_linspace` succeed. -/
theorem np_linspace_isOk_of_pos (start stop : ℚ) (num : ℤ) (hn : 1 ≤ num) :
    ∃ l, np_linspace start stop num = .ok l := by
  rcases eq_or_lt_of_le hn with heq | hlt
  · exact ⟨[start], by rw [← heq, np_linspace_one]⟩
  · exact ⟨_, np_linspace_of_two_le start stop num (by omega)⟩

/-- Nonzero denominators make `pyDiv` succeed. -/
theorem pyDiv_of_ne (a b : ℚ) (hb : b ≠ 0) : pyDiv a b = .ok (a / b) := by
  unfold pyDiv
  rw [if_neg hb]

/-- A zero denominator makes `pyDiv` raise. -/
theorem pyDiv_zero (a : ℚ) : pyDiv a 0 = .error "ZeroDivisionError" := by
  unfold pyDiv
  rw [if_pos rfl]

/-- Nonzero steps make `np_arange` succeed. -/
theorem np_arange_of_ne (start stop step : ℚ) (hs : step ≠ 0) :
    np_arange start stop step
      = .ok ((List.range (⌈(stop - start) / step⌉).toNat).map
          (fun i : ℕ => start + (i : ℚ) * step)) := by
  unfold np_arange
  rw [if_neg hs]

/-- A zero step makes `np_arange` raise. -/
theorem np_arange_zero (start stop : ℚ) :
    np_arange start stop 0 = .error "ZeroDivisionError" := by
  unfold np_arange
  rw [if_pos rfl]

/-- Unfolding of the monadic body of `solve` into explicit binds. -/
theorem solve_def (odeint : (List ℚ → ℚ → List ℚ) → List ℚ → List ℚ → List (List ℚ))
    (n_initial : ℚ) (precursor_density_initial beta_vector precursor_constants : List ℚ)
    (rho total_beta period h M_M C_M W_M M_F C_F T_in T_mod0 T_fuel0 : ℚ)
    (t_max t_start : ℚ) (num_iters : ℤ) :
    solve odeint n_initial precursor_density_initial beta_vector precursor_constants
        rho total_beta period h M_M C_M W_M M_F C_F T_in T_mod0 T_fuel0
        t_max t_start num_iters
      = Except.bind (np_linspace t_start t_max num_iters) (fun t =>
          Except.bind (pyDiv (t_max - t_start) (num_iters : ℚ)) (fun step =>
            Except.bind (np_arange t_start t_max step) (fun ts =>
              Except.ok
                { array := odeint
                    (fun state tt => state_deriv state tt beta_vector precursor_constants
                      rho total_beta period h M_M C_M W_M M_F C_F T_in)
                    (solve_initial_state n_initial precursor_density_initial T_mod0 T_fuel0) t,
                  t := ts }))) := rfl

/-- Any list of length six is a six-element literal. -/
theorem exists_list_eq_six (l : List ℚ) (hl : l.length = 6) :
    ∃ a b c d e f, l = [a, b, c, d, e, f] := by
  rcases l with _ | ⟨a, l⟩
  · simp at hl
  rcases l with _ | ⟨b, l⟩
  · simp at hl
  rcases l with _ | ⟨c, l⟩
  · simp at hl
  rcases l with _ | ⟨d, l⟩
  · simp at hl
  rcases l with _ | ⟨e, l⟩
  · simp at hl
  rcases l with _ | ⟨f, l⟩
  · simp at hl
  rcases l with _ | ⟨g, l⟩
  · exact ⟨a, b, c, d, e, f, rfl⟩
  · simp at hl

/-- Any list of length nine is a nine-element literal. -/
theorem exists_list_eq_nine (l : List ℚ) (hl : l.length = 9) :
    ∃ a b c d e f g p q, l = [a, b, c, d, e, f, g, p, q] := by
  rcases l with _ | ⟨a, l⟩
  · simp at hl
  rcases l with _ | ⟨b, l⟩
  · simp at hl
  rcases l with _ | ⟨c, l⟩
  · simp at hl
  rcases l with _ | ⟨d, l⟩
  · simp at hl
  rcases l with _ | ⟨e, l⟩
  · simp at hl
  rcases l with _ | ⟨f, l⟩
  · simp at hl
  rcases l with _ | ⟨g, l⟩
  · simp at hl
  rcases l with _ | ⟨p, l⟩
  · simp at hl
  rcases l with _ | ⟨q, l⟩
  · simp at hl
  rcases l with _ | ⟨r, l⟩
  · exact ⟨a, b, c, d, e, f, g, p, q, rfl⟩
  · simp at hl

end Eark

namespace Eark

/-- Claim C5 (confirmed): for every input with `period ≠ 0`,
`total_neutron_deriv` equals `((rho - beta)/period) * n` plus the inner
product of the precursor constants with the precursor densities; at the
documented example input (`rho = 0.00375`, `beta = 0.0075`,
`period = 6.0e-05`, `n = 4000`, the example constant and density vectors)
it equals `-219026.45` exactly. -/
theorem total_neutron_deriv_spec :
    (∀ (rho beta period n : ℚ) (lam c : List ℚ), period ≠ 0 →
      total_neutron_deriv rho beta period n lam c
        = ((rho - beta) / period) * n + (List.zipWith (fun l ci => l * ci) lam c).sum)
    ∧ total_neutron_deriv 0.00375 0.0075 0.00006 4000 cLam cPdi = -219026.45 := by
  constructor
  · intro rho beta period n lam c _
    rfl
  · norm_num [total_neutron_deriv, npInner, cLam, cPdi]

/-- Witness for C5: the general identity applied at a concrete input with
a nonzero period. -/
theorem total_neutron_deriv_spec_witness :
    (1 : ℚ) ≠ 0
    ∧ total_neutron_deriv 1 2 1 3 [4] [5]
        = ((1 - 2) / 1) * 3 + (List.zipWith (fun l ci => l * ci) [(4 : ℚ)] [5]).sum :=
  ⟨by norm_num, total_neutron_deriv_spec.1 1 2 1 3 [4] [5] (by norm_num)⟩

/-- Claim C6 (confirmed): for every input with `period ≠ 0` and 6-element
vectors, `delay_neutron_deriv` returns the 6-element vector with i-th
component `beta_vector[i] * n / period - precursor_constants[i] *
precursor_density[i]`; at the documented example input it returns exactly
`[17538, 116617, 103911.7333…, 209251.4966…, 52441.3333…, 2600.22]`
(the exact rationals `1558676/15`, `62775449/300` and `157324/3` for the
repeating decimals). -/
theorem delay_neutron_deriv_spec :
    (∀ (bv : List ℚ) (period n : ℚ) (lam c : List ℚ), period ≠ 0 →
      bv.length = 6 → lam.length = 6 → c.length = 6 →
      (delay_neutron_deriv bv period n lam c).length = 6
      ∧ ∀ k : ℕ, k < 6 →
          (delay_neutron_deriv bv period n lam c).getD k 0
            = bv.getD k 0 * n / period - lam.getD k 0 * c.getD k 0)
    ∧ delay_neutron_deriv cBeta 0.0075 4000 cLam cPdi
        = [17538, 116617, 1558676/15, 62775449/300, 157324/3, 2600.22] := by
  constructor
  · intro bv period n lam c _ hbv hlam hc
    obtain ⟨b0, b1, b2, b3, b4, b5, rfl⟩ := exists_list_eq_six bv hbv
    obtain ⟨l0, l1, l2, l3, l4, l5, rfl⟩ := exists_list_eq_six lam hlam
    obtain ⟨c0, c1, c2, c3, c4, c5, rfl⟩ := exists_list_eq_six c hc
    refine ⟨rfl, ?_⟩
    intro k hk
    interval_cases k <;> rfl
  · norm_num [delay_neutron_deriv, cBeta, cLam, cPdi]

/-- Witness for C6: the general statement applied at the documented
example vectors with a concrete nonzero period. -/
theorem delay_neutron_deriv_spec_witness :
    (2 : ℚ) ≠ 0 ∧ (delay_neutron_deriv cBeta 2 1 cLam cPdi).length = 6 :=
  ⟨by norm_num,
    (delay_neutron_deriv_spec.1 cBeta 2 1 cLam cPdi (by norm_num) rfl rfl rfl).1⟩

/-- Claim C7 (confirmed): for every input with `M_M ≠ 0` and `C_M ≠ 0`,
`mod_temp_deriv` equals `(h/(M_M*C_M))*(T_fuel - T_mod) -
(2*W_M/M_M)*(T_mod - T_in)`, the factor `2` on the flow term being the
literal constant in the source, not influenced by any argument. -/
theorem mod_temp_deriv_spec :
    ∀ h M_M C_M W_M T_fuel T_mod T_in : ℚ, M_M ≠ 0 → C_M ≠ 0 →
      mod_temp_deriv h M_M C_M W_M T_fuel T_mod T_in
        = (h / (M_M * C_M)) * (T_fuel - T_mod) - (2 * W_M / M_M) * (T_mod - T_in) :=
  fun _ _ _ _ _ _ _ _ _ => rfl

/-- Witness for C7: the identity applied at a concrete input with nonzero
mass and heat capacity. -/
theorem mod_temp_deriv_spec_witness :
    (3 : ℚ) ≠ 0
    ∧ mod_temp_deriv 1 3 5 7 11 13 17
        = (1 / (3 * 5)) * (11 - 13) - (2 * 7 / 3) * (13 - 17) :=
  ⟨by norm_num, mod_temp_deriv_spec 1 3 5 7 11 13 17 (by norm_num) (by norm_num)⟩

/-- Claim C8 (confirmed): for every input with `M_F ≠ 0` and `C_F ≠ 0`,
`fuel_temp_deriv` equals `n/(M_F*C_F) - (h/(M_F*C_F))*(T_fuel - T_mod)`. -/
theorem fuel_temp_deriv_spec :
    ∀ n M_F C_F h T_fuel T_mod : ℚ, M_F ≠ 0 → C_F ≠ 0 →
      fuel_temp_deriv n M_F C_F h T_fuel T_mod
        = n / (M_F * C_F) - (h / (M_F * C_F)) * (T_fuel - T_mod) :=
  fun _ _ _ _ _ _ _ _ => rfl

/-- Witness for C8: the identity applied at a concrete input with nonzero
mass and heat capacity. -/
theorem fuel_temp_deriv_spec_witness :
    (3 : ℚ) ≠ 0
    ∧ fuel_temp_deriv 2 3 5 7 11 13 = 2 / (3 * 5) - (7 / (3 * 5)) * (11 - 13) :=
  ⟨by norm_num, fuel_temp_deriv_spec 2 3 5 7 11 13 (by norm_num) (by norm_num)⟩

/-- Claim C10 (confirmed): the assembled system is autonomous — the state
derivative ignores its time argument: for every state vector, every
constants bundle and every pair of times, the results coincide. -/
theorem state_deriv_autonomous :
    ∀ (state : List ℚ) (t1 t2 : ℚ) (bv lam : List ℚ)
      (rho total_beta period h M_M C_M W_M M_F C_F T_in : ℚ),
      state_deriv state t1 bv lam rho total_beta period h M_M C_M W_M M_F C_F T_in
        = state_deriv state t2 bv lam rho total_beta period h M_M C_M W_M M_F C_F T_in :=
  fun _ _ _ _ _ _ _ _ _ _ _ _ _ _ _ => rfl

end Eark

namespace Eark

/-- Claim C1 (amended): for every solution grid with the 9-column layout
produced by `solve`, `precursor_density(i)` with `i` in 1..6 returns
exactly column `i-1` of the precursor-density block; `i = 7` fails with
an out-of-range error; but `i = 0` does NOT fail: Python negative
indexing wraps it to the last precursor column (block index 5). -/
theorem precursor_density_index_behavior (s : Solution)
    (hne : s.array ≠ []) (hrow : ∀ r ∈ s.array, r.length = 9) :
    (∀ i : ℤ, 1 ≤ i → i ≤ 6 →
      s.precursor_density i = .ok (colOf s.precursor_densities (i - 1).toNat))
    ∧ s.precursor_density 7 = .error "IndexError"
    ∧ s.precursor_density 0 = .ok (colOf s.precursor_densities 5) := by
  have hcols : npCols s.precursor_densities = 6 := by
    rcases hs : s.array with _ | ⟨r0, rest⟩
    · exact absurd hs hne
    · have hr0 : r0.length = 9 := hrow r0 (by rw [hs]; exact List.mem_cons_self _ _)
      simp [Solution.precursor_densities, npCols, hs, slice1ToM2, hr0]
  refine ⟨?_, ?_, ?_⟩
  · intro i h1 h6
    unfold Solution.precursor_density npGetCol
    rw [hcols]
    unfold npColIdx
    rw [if_pos (by constructor <;> omega)]
    rfl
  · unfold Solution.precursor_density npGetCol
    rw [hcols]
    unfold npColIdx
    rw [if_neg (by omega), if_neg (by omega)]
    rfl
  · unfold Solution.precursor_density npGetCol
    rw [hcols]
    unfold npColIdx
    rw [if_neg (by omega), if_pos (by constructor <;> omega)]
    rfl

/-- Counterexample for C1 as frozen: requesting the invalid precursor
index `i = 0` does not raise an out-of-range error — on a concrete
one-row grid it silently returns the sixth precursor column. -/
theorem precursor_density_zero_wraps :
    exSol.precursor_density 0 = .ok [6] := by
  norm_num [exSol, Solution.precursor_density, Solution.precursor_densities, npGetCol,
    npCols, npColIdx, colOf, slice1ToM2, Except.map, show ((5 : ℤ)).toNat = 5 from rfl,
    List.getD]

/-- Witness for C1: the amended statement applied to the concrete one-row
grid, showing the `i = 7` failure and a valid round-trip at `i = 2`. -/
theorem precursor_density_index_behavior_witness :
    exSol.array ≠ []
    ∧ exSol.precursor_density 7 = .error "IndexError"
    ∧ exSol.precursor_density 2 = .ok (colOf exSol.precursor_densities 1) := by
  have hrow : ∀ r ∈ exSol.array, r.length = 9 := by
    intro r hr
    simp [exSol] at hr
    subst hr
    rfl
  exact ⟨by simp [exSol],
    (precursor_density_index_behavior exSol (by simp [exSol]) hrow).2.1,
    (precursor_density_index_behavior exSol (by simp [exSol]) hrow).1 2
      (by norm_num) (by norm_num)⟩

/-- Claim C2 (code bug, evaluated at the failing input): with
`t_start = 0`, `t_max = 1`, `num_iters = 2`, `solve` hands the integrator
the `np.linspace` grid `[0, 1]` but stores the `np.arange` grid
`[0, 1/2]` in the returned `Solution`, and the two differ. -/
theorem solution_time_grid_mismatch :
    np_linspace 0 1 2 = .ok [0, 1]
    ∧ (solve trivODE 4000 cPdi cBeta cLam 0.00375 0.0075 0.00006
          1 1 1 1 1 1 300 350 400 1 0 2).map Solution.t = .ok [0, 1/2]
    ∧ ([0, (1 : ℚ)/2] : List ℚ) ≠ [0, 1] := by
  refine ⟨?_, ?_, ?_⟩
  · norm_num [np_linspace, List.range_succ, show ((2 : ℤ)).toNat = 2 from rfl]
  · have hceil : ⌈(1 - 0 : ℚ) / ((1 - 0) / 2)⌉ = 2 := by norm_num
    norm_num [solve, trivODE, np_linspace, np_arange, pyDiv, hceil, List.range_succ,
      show ((2 : ℤ)).toNat = 2 from rfl, bind, Except.bind, pure, Except.pure, Except.map,
      List.singleton]
  · norm_num

/-- Counterexample for C3 as frozen: a valid call of `solve` (contractual
integrator, 6 initial precursor densities, `num_iters = 2`,
`t_start = 0 < t_max = 1`) yields rows of width 9, and `9 ≠ 15`. -/
theorem solve_columns_are_nine :
    (solve trivODE 4000 cPdi cBeta cLam 0.00375 0.0075 0.00006
        1 1 1 1 1 1 300 350 400 1 0 2).map (fun s => s.array.map List.length)
      = .ok [9, 9]
    ∧ (9 : ℕ) ≠ 15 := by
  constructor
  · have hceil : ⌈(1 - 0 : ℚ) / ((1 - 0) / 2)⌉ = 2 := by norm_num
    norm_num [solve, trivODE, np_linspace, np_arange, pyDiv, hceil, List.range_succ,
      show ((2 : ℤ)).toNat = 2 from rfl, bind, Except.bind, pure, Except.pure, Except.map,
      List.singleton, solve_initial_state, cPdi]
  · norm_num

/-- Claim C3 (amended): for every integrator satisfying the documented
shape contract and every valid call (6 initial precursor densities,
`num_iters ≥ 2`, `t_start < t_max`), the returned `Solution` has
`array.length = num_iters` rows, a time sequence of length `num_iters`,
and every row of width 9 (not 15: the 15-column layout belongs to the
richer model outside this solver). -/
theorem solve_output_shape
    (odeint : (List ℚ → ℚ → List ℚ) → List ℚ → List ℚ → List (List ℚ))
    (hode : ∀ f y0 ts, (odeint f y0 ts).length = ts.length
      ∧ ∀ r ∈ odeint f y0 ts, r.length = y0.length)
    (n_initial : ℚ) (pdi bv lam : List ℚ) (hpdi : pdi.length = 6)
    (rho total_beta period h M_M C_M W_M M_F C_F T_in T_mod0 T_fuel0 : ℚ)
    (t_max t_start : ℚ) (num_iters : ℤ) (hn : 2 ≤ num_iters) (ht : t_start < t_max) :
    (solve odeint n_initial pdi bv lam rho total_beta period h M_M C_M W_M M_F C_F
        T_in T_mod0 T_fuel0 t_max t_start num_iters).map
        (fun s => (s.array.length, s.t.length, s.array.all (fun r => r.length == 9)))
      = .ok (num_iters.toNat, num_iters.toNat, true) := by
  have hnq : ((num_iters : ℚ)) ≠ 0 := Int.cast_ne_zero.mpr (by omega)
  have hsub : t_max - t_start ≠ 0 := sub_ne_zero.mpr (ne_of_gt ht)
  have hstep : (t_max - t_start) / (num_iters : ℚ) ≠ 0 := div_ne_zero hsub hnq
  have hdiv : (t_max - t_start) / ((t_max - t_start) / (num_iters : ℚ)) = (num_iters : ℚ) := by
    field_simp
  have hceil : ⌈(t_max - t_start) / ((t_max - t_start) / (num_iters : ℚ))⌉ = num_iters := by
    rw [hdiv, Int.ceil_intCast]
  rw [solve_def, np_linspace_of_two_le _ _ _ hn, ok_bind, pyDiv_of_ne _ _ hnq, ok_bind,
    np_arange_of_ne _ _ _ hstep, ok_bind]
  simp only [Except.map, Except.ok.injEq, Prod.mk.injEq]
  refine ⟨?_, ?_, ?_⟩
  · rw [(hode _ _ _).1]
    rw [List.length_map, List.length_range]
  · rw [List.length_map, List.length_range, hceil]
  · rw [List.all_eq_true]
    intro r hr
    have h9 := (hode _ _ _).2 r hr
    simp [h9, solve_initial_state, hpdi]

/-- Witness for C3: the amended shape statement instantiated with the
trivial contractual integrator at a concrete valid call. -/
theorem solve_output_shape_witness :
    cPdi.length = 6
    ∧ (solve trivODE 4000 cPdi cBeta cLam 0.00375 0.0075 0.00006
          1 1 1 1 1 1 300 350 400 1 0 2).map
          (fun s => (s.array.length, s.t.length, s.array.all (fun r => r.length == 9)))
        = .ok (2, 2, true) := by
  have hode : ∀ f y0 ts, (trivODE f y0 ts).length = ts.length
      ∧ ∀ r ∈ trivODE f y0 ts, r.length = y0.length := by
    intro f y0 ts
    refine ⟨by simp [trivODE], ?_⟩
    intro r hr
    simp [trivODE] at hr
    obtain ⟨a, _, rfl⟩ := hr
    rfl
  exact ⟨rfl, solve_output_shape trivODE hode 4000 cPdi cBeta cLam rfl
    0.00375 0.0075 0.00006 1 1 1 1 1 1 300 350 400 1 0 2 (by norm_num) (by norm_num)⟩

/-- Counterexample for C4 as frozen: `solve` does not raise on malformed
time spans — with `t_max = 0 < t_start = 1` (and `num_iters = 3`) it
returns a Solution, and with `num_iters = 1 < 2` (and a proper span) it
also returns a degenerate Solution. -/
theorem solve_malformed_args_no_error :
    (solve trivODE 4000 cPdi cBeta cLam 0.00375 0.0075 0.00006
        1 1 1 1 1 1 300 350 400 0 1 3).isOk = true
    ∧ (solve trivODE 4000 cPdi cBeta cLam 0.00375 0.0075 0.00006
        1 1 1 1 1 1 300 350 400 1 0 1).isOk = true := by
  constructor
  · norm_num [solve, trivODE, np_linspace, np_arange, pyDiv, bind, Except.bind,
      pure, Except.pure, Except.isOk, Except.toBool, List.range_succ,
      show ((3 : ℤ)).toNat = 3 from rfl]
  · norm_num [solve, trivODE, np_linspace, np_arange, pyDiv, bind, Except.bind,
      pure, Except.pure, Except.isOk, Except.toBool]

/-- Claim C4 (amended): `solve` performs no fail-fast validation of its
time-span arguments.  With `t_max < t_start` (any `num_iters ≥ 1`) it
succeeds and returns a Solution over a descending grid; with
`num_iters = 1 < 2` and `t_max ≠ t_start` it succeeds with a degenerate
single-point Solution; the only raised error in this family is the
accidental zero-step `ZeroDivisionError` from `np.arange` (or the zero
division computing the step) when `t_max = t_start`. -/
theorem solve_time_span_no_validation
    (odeint : (List ℚ → ℚ → List ℚ) → List ℚ → List ℚ → List (List ℚ))
    (n_initial : ℚ) (pdi bv lam : List ℚ)
    (rho total_beta period h M_M C_M W_M M_F C_F T_in T_mod0 T_fuel0 : ℚ)
    (t_max t_start : ℚ) (num_iters : ℤ) :
    (t_max < t_start → 1 ≤ num_iters →
      (solve odeint n_initial pdi bv lam rho total_beta period h M_M C_M W_M M_F C_F
        T_in T_mod0 T_fuel0 t_max t_start num_iters).isOk = true)
    ∧ (t_max ≠ t_start →
      (solve odeint n_initial pdi bv lam rho total_beta period h M_M C_M W_M M_F C_F
        T_in T_mod0 T_fuel0 t_max t_start 1).isOk = true)
    ∧ (t_max = t_start →
      (solve odeint n_initial pdi bv lam rho total_beta period h M_M C_M W_M M_F C_F
        T_in T_mod0 T_fuel0 t_max t_start num_iters).isOk = false) := by
  refine ⟨?_, ?_, ?_⟩
  · intro hlt hn
    obtain ⟨l, hl⟩ := np_linspace_isOk_of_pos t_start t_max num_iters hn
    have hnq : ((num_iters : ℚ)) ≠ 0 := Int.cast_ne_zero.mpr (by omega)
    have hstep : (t_max - t_start) / (num_iters : ℚ) ≠ 0 :=
      div_ne_zero (sub_ne_zero.mpr (ne_of_lt hlt)) hnq
    rw [solve_def, hl, ok_bind, pyDiv_of_ne _ _ hnq, ok_bind,
      np_arange_of_ne _ _ _ hstep, ok_bind]
    exact isOk_ok _
  · intro hne
    have hstep : (t_max - t_start) / ((1 : ℤ) : ℚ) ≠ 0 := by
      rw [Int.cast_one, div_one]
      exact sub_ne_zero.mpr hne
    rw [solve_def, np_linspace_one, ok_bind, pyDiv_of_ne _ _ (by norm_num), ok_bind,
      np_arange_of_ne _ _ _ hstep, ok_bind]
    exact isOk_ok _
  · intro heq
    rcases lt_trichotomy num_iters 0 with hneg | hzero | hpos
    · rw [solve_def, np_linspace_neg _ _ _ hneg, error_bind]
      exact isOk_error _
    · subst hzero
      rw [solve_def, np_linspace_zero, ok_bind, Int.cast_zero, pyDiv_zero, error_bind]
      exact isOk_error _
    · obtain ⟨l, hl⟩ := np_linspace_isOk_of_pos t_start t_max num_iters (by omega)
      have hnq : ((num_iters : ℚ)) ≠ 0 := Int.cast_ne_zero.mpr (by omega)
      have hstep0 : (t_max - t_start) / (num_iters : ℚ) = 0 := by
        rw [heq, sub_self, zero_div]
      rw [solve_def, hl, ok_bind, pyDiv_of_ne _ _ hnq, ok_bind, hstep0,
        np_arange_zero, error_bind]
      exact isOk_error _

/-- Witness for C4: the amended statement applied at a concrete equal
time span, where `solve` does raise. -/
theorem solve_time_span_no_validation_witness :
    ((1 : ℚ) = 1)
    ∧ (solve trivODE 4000 cPdi cBeta cLam 0.00375 0.0075 0.00006
        1 1 1 1 1 1 300 350 400 1 1 7).isOk = false :=
  ⟨rfl, (solve_time_span_no_validation trivODE 4000 cPdi cBeta cLam 0.00375 0.0075 0.00006
    1 1 1 1 1 1 300 350 400 1 1 7).2.2 rfl⟩

/-- Claim C9 (confirmed): the state-derivative assembly preserves the
fixed field layout.  For every 9-element state (and 6-element beta and
precursor-constant vectors) the output has length 9; component 0 is the
neutron-population derivative computed from `state[0]` and the contiguous
precursor block `state[1..6]`; components `1..6` are the delayed-neutron
derivatives of `state[1..6]`; component 7 is the moderator-temperature
derivative for `state[7]`; component 8 is the fuel-temperature derivative
for `state[8]`.  Moreover `solve` builds its initial flattened state in
the same order: `n` at 0, the six precursor densities at `1..6`, `T_mod`
at 7 and `T_fuel` at 8, with total length 9. -/
theorem state_layout_spec :
    (∀ (state : List ℚ) (t : ℚ) (bv lam : List ℚ)
        (rho total_beta period h M_M C_M W_M M_F C_F T_in : ℚ),
      state.length = 9 → bv.length = 6 → lam.length = 6 →
      (state_deriv state t bv lam rho total_beta period h M_M C_M W_M M_F C_F T_in).length = 9
      ∧ (state_deriv state t bv lam rho total_beta period h M_M C_M W_M M_F C_F T_in).getD 0 0
          = total_neutron_deriv rho total_beta period (state.getD 0 0) lam
              [state.getD 1 0, state.getD 2 0, state.getD 3 0, state.getD 4 0,
                state.getD 5 0, state.getD 6 0]
      ∧ (∀ k : ℕ, k < 6 →
          (state_deriv state t bv lam rho total_beta period h M_M C_M W_M M_F C_F T_in).getD
              (k + 1) 0
            = bv.getD k 0 * state.getD 0 0 / period - lam.getD k 0 * state.getD (k + 1) 0)
      ∧ (state_deriv state t bv lam rho total_beta period h M_M C_M W_M M_F C_F T_in).getD 7 0
          = mod_temp_deriv h M_M C_M W_M (state.getD 8 0) (state.getD 7 0) T_in
      ∧ (state_deriv state t bv lam rho total_beta period h M_M C_M W_M M_F C_F T_in).getD 8 0
          = fuel_temp_deriv (state.getD 0 0) M_F C_F h (state.getD 8 0) (state.getD 7 0))
    ∧ (∀ (n0 : ℚ) (pdi : List ℚ) (Tm0 Tf0 : ℚ), pdi.length = 6 →
        (solve_initial_state n0 pdi Tm0 Tf0).length = 9
        ∧ (solve_initial_state n0 pdi Tm0 Tf0).getD 0 0 = n0
        ∧ (∀ k : ℕ, k < 6 →
            (solve_initial_state n0 pdi Tm0 Tf0).getD (k + 1) 0 = pdi.getD k 0)
        ∧ (solve_initial_state n0 pdi Tm0 Tf0).getD 7 0 = Tm0
        ∧ (solve_initial_state n0 pdi Tm0 Tf0).getD 8 0 = Tf0) := by
  constructor
  · intro state t bv lam rho total_beta period h M_M C_M W_M M_F C_F T_in hst hbv hlam
    obtain ⟨s0, s1, s2, s3, s4, s5, s6, s7, s8, rfl⟩ := exists_list_eq_nine state hst
    obtain ⟨b0, b1, b2, b3, b4, b5, rfl⟩ := exists_list_eq_six bv hbv
    obtain ⟨l0, l1, l2, l3, l4, l5, rfl⟩ := exists_list_eq_six lam hlam
    refine ⟨rfl, rfl, ?_, rfl, rfl⟩
    intro k hk
    interval_cases k <;> rfl
  · intro n0 pdi Tm0 Tf0 hpdi
    obtain ⟨p0, p1, p2, p3, p4, p5, rfl⟩ := exists_list_eq_six pdi hpdi
    refine ⟨rfl, rfl, ?_, rfl, rfl⟩
    intro k hk
    interval_cases k <;> rfl

/-- Witness for C9: the layout statement applied to a concrete 9-element
state with the documented example vectors. -/
theorem state_layout_spec_witness :
    ([1, 2, 3, 4, 5, 6, 7, 8, 9] : List ℚ).length = 9
    ∧ (state_deriv [1, 2, 3, 4, 5, 6, 7, 8, 9] 0 cBeta cLam 1 1 1 1 1 1 1 1 1 1).length = 9 :=
  ⟨rfl, (state_layout_spec.1 [1, 2, 3, 4, 5, 6, 7, 8, 9] 0 cBeta cLam
    1 1 1 1 1 1 1 1 1 1 rfl rfl rfl).1⟩

end Eark
